import Mathlib

/-!
# Shallow embedding of the voofo music backend (`src/app.py`)

This file embeds the data model and request handlers of the Flask
application in `src/app.py` and proves properties of them.

Modelling conventions:
* Python strings are Lean `String`s; `str.strip()`, `str.lower()` and the
  slice `s[:n]` are embedded as `pystrip`, `pylower` and `pytake`, defined
  below directly on the code-point list (the core `String` operations go
  through `Substring` machinery that the kernel cannot evaluate).
* The PostgreSQL store is an explicit `DB` value threaded through the
  handlers; SQL statements become list operations on it.  The `users`
  table's `UNIQUE` index on `username` (and the `psycopg2.IntegrityError`
  it raises on a duplicate `INSERT`) is modelled by an explicit
  membership test before the insert.
* `werkzeug`'s salted password hashing is modelled abstractly: a hash is
  an opaque pair of a salt and the hashed password, and
  `check_password_hash` succeeds exactly on the hashed password
  (hash collisions are ignored, as they are cryptographically negligible).
* `PyJWT` HS256 tokens are modelled abstractly: a token is either a
  well-formed token carrying its payload and the secret it was signed
  with, or a malformed blob; `jwt.decode` succeeds exactly when the token
  is well-formed and the secrets agree, and "raising an exception" is
  returning `none`.
* Network and regex extraction in `search_youtube` are not
  re-implemented: the outcome of the `requests.get` + `re.findall` phase
  is an explicit `FetchResult` input (either the four extracted ordered
  lists, or a raised exception), and everything after extraction is
  embedded faithfully.
-/

namespace Voofo

/-- Python `str.strip()`: the string without its leading and trailing
whitespace. -/
def pystrip (s : String) : String :=
  ⟨((s.data.dropWhile Char.isWhitespace).reverse.dropWhile
      Char.isWhitespace).reverse⟩

/-- Python `str.lower()`: every character lowercased. -/
def pylower (s : String) : String :=
  ⟨s.data.map Char.toLower⟩

/-- Python slice `s[:n]`: the first `n` code points of `s`. -/
def pytake (s : String) (n : Nat) : String :=
  ⟨s.data.take n⟩

/-- Payload of the tokens issued by `register` and `login`:
`{'user_id': ..., 'username': ...}` (app.py lines 234-238, 292-296). -/
structure Payload where
  user_id : Nat
  username : String
deriving Repr, DecidableEq

/-- Abstract model of an HS256 JSON Web Token: either a well-formed token
recording its payload and the signing secret, or a malformed string. -/
inductive Token where
  | signed (payload : Payload) (secret : String)
  | malformed (raw : String)
deriving Repr, DecidableEq

/-- `jwt.encode(payload, secret, algorithm='HS256')`. -/
def jwt_encode (payload : Payload) (secret : String) : Token :=
  .signed payload secret

/-- `jwt.decode(token, secret, algorithms=['HS256'])`: succeeds exactly when
the token is well-formed and was signed with the same secret; any raised
exception (bad signature, malformed token) is `none`. -/
def jwt_decode (t : Token) (secret : String) : Option Payload :=
  match t with
  | .signed payload s => if s == secret then some payload else none
  | .malformed _ => none

/-- Abstract salted password hash (werkzeug `generate_password_hash`). -/
structure PasswordHash where
  salt : Nat
  hashed : String
deriving Repr, DecidableEq

/-- `generate_password_hash(password)`; the salt is an explicit input since
werkzeug draws it nondeterministically. -/
def generate_password_hash (salt : Nat) (password : String) : PasswordHash :=
  ⟨salt, password⟩

/-- `check_password_hash(stored, candidate)`: true exactly when the
candidate is the password that was hashed. -/
def check_password_hash (stored : PasswordHash) (candidate : String) : Bool :=
  stored.hashed == candidate

/-- A row of the `users` table (app.py lines 44-53; `created_at` and
`preferences` are never read by any handler and are omitted). -/
structure User where
  id : Nat
  username : String
  email : String
  password_hash : PasswordHash
deriving Repr, DecidableEq

/-- A row of the `search_history` table (app.py lines 56-64). -/
structure SearchHistoryRow where
  user_id : Nat
  query : String
  result_count : Nat
deriving Repr, DecidableEq

/-- The relational store: the `users` table together with the next value
of its `SERIAL` primary key, and the append-only `search_history` table. -/
structure DB where
  users : List User
  next_id : Nat
  search_history : List SearchHistoryRow
deriving Repr, DecidableEq

/-- `SELECT id, username, email FROM users WHERE id = %s` (first row). -/
def find_user_by_id (db : DB) (uid : Nat) : Option User :=
  db.users.find? (fun u => u.id == uid)

/-- `SELECT id, username, email, password_hash FROM users WHERE username = %s`
(first row). -/
def find_user_by_username (db : DB) (uname : String) : Option User :=
  db.users.find? (fun u => u.username == uname)

/-- Modelled from the spec: the Like Registry of spec §4.3 and §6
(`toggleLike`, `listLiked`, the `LikedSong` rows behind `POST /api/like`
and `GET /api/liked/{user_id}`).  No like endpoint or `liked_songs` table
appears in `src/app.py` (this iteration of the backend has only
registration, login, search, play and profile), so the registry is
modelled faithfully from the spec's words: a `LikedSong` row is
`(user_id, song_id, title, artist, thumbnail)`. -/
structure LikedSong where
  user_id : Nat
  song_id : String
  title : String
  artist : String
  thumbnail : String
deriving Repr, DecidableEq

/-- Modelled from the spec: the Like Registry's stored rows, in stable
storage (insertion) order. -/
abbrev LikeRegistry := List LikedSong

/-- Result of a toggle: spec §4.3 `toggleLike(...) -> Liked | Unliked`. -/
inductive ToggleResult where
  | liked
  | unliked
deriving Repr, DecidableEq

/-- Row predicate for the registry's `(user_id, song_id)` key. -/
def likes_row (u : Nat) (s : String) (r : LikedSong) : Bool :=
  r.user_id == u && r.song_id == s

/-- Modelled from the spec (§4.3): "If a row exists for (user_id, song_id),
delete it and report Unliked; otherwise insert the provided metadata and
report Liked." -/
def toggleLike (reg : LikeRegistry) (u : Nat) (s title artist thumbnail : String) :
    ToggleResult × LikeRegistry :=
  if reg.any (likes_row u s) then
    (.unliked, reg.filter (fun r => !(likes_row u s r)))
  else
    (.liked, reg ++ [⟨u, s, title, artist, thumbnail⟩])

/-- Modelled from the spec (§4.3): `listLiked(user_id)`, the user's rows in
stable storage order. -/
def listLiked (reg : LikeRegistry) (u : Nat) : List LikedSong :=
  reg.filter (fun r => r.user_id == u)

/-- The `current_user` dict passed to gated handlers
(app.py lines 186-190). -/
structure CurrentUser where
  id : Nat
  username : String
  email : String
deriving Repr, DecidableEq

/-- Outcome of the `token_required` decorator: either an error response
with its HTTP status, or the gated handler runs with `current_user`. -/
inductive AuthOutcome where
  | rejected (status : Nat) (msg : String)
  | granted (user : CurrentUser)
deriving Repr, DecidableEq

/-- The `token_required` decorator (app.py lines 157-196).  `token` is the
token resolved from the `Authorization` header or the session fallback
(`none` when neither yields one); `dbAvailable` is whether
`get_db_connection()` returns a connection.  A `jwt.decode` failure, a
missing user row, and an unavailable connection all fall through to the
final `'Token is invalid'` 401. -/
def token_required (secret : String) (db : DB) (dbAvailable : Bool)
    (token : Option Token) : AuthOutcome :=
  match token with
  | none => .rejected 401 "Token is missing"
  | some t =>
    match jwt_decode t secret with
    | none => .rejected 401 "Token is invalid"
    | some payload =>
      if dbAvailable then
        match find_user_by_id db payload.user_id with
        | some u => .granted ⟨u.id, u.username, u.email⟩
        | none => .rejected 401 "Token is invalid"
      else .rejected 401 "Token is invalid"

/-- JSON body of `POST /api/register`; a missing field is `""`
(`data.get(..., '')`). -/
structure RegisterRequest where
  username : String
  email : String
  password : String
deriving Repr, DecidableEq

/-- Responses of the `register` handler (app.py lines 204-266). -/
inductive RegisterResponse where
  | missingFields
  | shortPassword
  | duplicate
  | dbFailed
  | ok (user_id : Nat) (username email : String) (token : Token)
deriving Repr, DecidableEq

/-- HTTP status of each `register` response (Flask default is 200). -/
def RegisterResponse.status : RegisterResponse → Nat
  | .missingFields => 400
  | .shortPassword => 400
  | .duplicate => 400
  | .dbFailed => 500
  | .ok _ _ _ _ => 200

/-- The `register` handler (app.py lines 204-266).  The `UNIQUE` index on
`users.username` (surfaced in the code as `psycopg2.IntegrityError` from
the `INSERT`) is modelled by the membership test before inserting; `salt`
is the salt werkzeug draws for this call. -/
def register (db : DB) (salt : Nat) (secret : String) (dbAvailable : Bool)
    (req : RegisterRequest) : RegisterResponse × DB :=
  let username := (pystrip req.username)
  let email := (pystrip req.email)
  let password := (pystrip req.password)
  if username = "" ∨ password = "" then (.missingFields, db)
  else if password.length < 6 then (.shortPassword, db)
  else if dbAvailable then
    if db.users.any (fun u => u.username == username) then (.duplicate, db)
    else
      (.ok db.next_id username email (jwt_encode ⟨db.next_id, username⟩ secret),
        { db with
          users := db.users ++
            [⟨db.next_id, username, email, generate_password_hash salt password⟩],
          next_id := db.next_id + 1 })
  else (.dbFailed, db)

/-- JSON body of `POST /api/login`; a missing field is `""`. -/
structure LoginRequest where
  username : String
  password : String
deriving Repr, DecidableEq

/-- Responses of the `login` handler (app.py lines 268-320). -/
inductive LoginResponse where
  | missingFields
  | invalid
  | dbFailed
  | ok (user_id : Nat) (username email : String) (token : Token)
deriving Repr, DecidableEq

/-- HTTP status of each `login` response. -/
def LoginResponse.status : LoginResponse → Nat
  | .missingFields => 400
  | .invalid => 401
  | .dbFailed => 500
  | .ok _ _ _ _ => 200

/-- The `login` handler (app.py lines 268-320): look the username up; the
combined check `if user and check_password_hash(...)` sends both a missing
row and a wrong password to the 401 `'Invalid username or password'`. -/
def login (db : DB) (secret : String) (dbAvailable : Bool)
    (req : LoginRequest) : LoginResponse :=
  let username := (pystrip req.username)
  let password := (pystrip req.password)
  if username = "" ∨ password = "" then .missingFields
  else if dbAvailable then
    match find_user_by_username db username with
    | some u =>
      if check_password_hash u.password_hash password then
        .ok u.id u.username u.email (jwt_encode ⟨u.id, u.username⟩ secret)
      else .invalid
    | none => .invalid
  else .dbFailed

/-- A track record built by `search_youtube` (the dict of app.py
lines 140-148). -/
structure Video where
  id : String
  title : String
  artist : String
  channel : String
  duration : String
  thumbnail : String
  url : String
deriving Repr, DecidableEq

/-- The combining loop of `search_youtube` (app.py lines 134-148): for each
of the first `max_results` video ids, take the title/channel/duration at
the same index when those lists are long enough and the placeholders
`"Unknown Title"`/`"Unknown Artist"`/`"N/A"` otherwise; the title is the
slice `title[:80]`. -/
def combine_videos (video_ids titles channels durations : List String)
    (max_results : Nat) : List Video :=
  ((video_ids.take max_results).enum).map (fun p =>
    let video_id := p.2
    let title := titles.getD p.1 "Unknown Title"
    let channel := channels.getD p.1 "Unknown Artist"
    let duration := durations.getD p.1 "N/A"
    { id := video_id
      title := pytake title 80
      artist := channel
      channel := channel
      duration := duration
      thumbnail := "https://i.ytimg.com/vi/" ++ video_id ++ "/hqdefault.jpg"
      url := "https://www.youtube.com/watch?v=" ++ video_id })

/-- Outcome of the network + regex phase of `search_youtube` (app.py lines
105-132): either the four independently extracted ordered lists (the video
ids already deduplicated by `list(set(...))`), or any raised exception
(network error, parse error). -/
inductive FetchResult where
  | success (video_ids titles channels durations : List String)
  | failure
deriving Repr, DecidableEq

/-- `search_youtube(query, max_results)` (app.py lines 103-154): the whole
body is wrapped in `try`/`except`, so any raised exception returns `[]`;
otherwise the extracted lists are zipped into records. -/
def search_youtube (outcome : FetchResult) (max_results : Nat) : List Video :=
  match outcome with
  | .success video_ids titles channels durations =>
      combine_videos video_ids titles channels durations max_results
  | .failure => []

/-- The hardcoded fallback track list of the `search` endpoint (app.py
lines 386-410). -/
def fallback_videos : List Video :=
  [⟨"dQw4w9WgXcQ", "Rick Astley - Never Gonna Give You Up", "Rick Astley",
    "Rick Astley", "3:32", "https://i.ytimg.com/vi/dQw4w9WgXcQ/hqdefault.jpg",
    "https://www.youtube.com/watch?v=dQw4w9WgXcQ"⟩,
   ⟨"kJQP7kiw5Fk", "Luis Fonsi - Despacito ft. Daddy Yankee", "Luis Fonsi",
    "Luis Fonsi", "4:41", "https://i.ytimg.com/vi/kJQP7kiw5Fk/hqdefault.jpg",
    "https://www.youtube.com/watch?v=kJQP7kiw5Fk"⟩,
   ⟨"09R8_2nJtjg", "Maroon 5 - Sugar", "Maroon 5",
    "Maroon 5", "5:01", "https://i.ytimg.com/vi/09R8_2nJtjg/hqdefault.jpg",
    "https://www.youtube.com/watch?v=09R8_2nJtjg"⟩]

/-- Mutable state touched by the `search` endpoint: the module-level
`search_cache` dict (app.py line 22, modelled as an association list where
a fresh key is prepended) and the relational store. -/
structure SearchState where
  cache : List (String × List Video)
  db : DB
deriving Repr, DecidableEq

/-- Response of the `search` endpoint: HTTP status, JSON body, and
whether `search_youtube` was invoked on this request (`scraped`
instruments the embedding so that "no scrape happened" is expressible). -/
structure SearchResult where
  status : Nat
  body : List Video
  scraped : Bool
deriving Repr, DecidableEq

/-- The `search` endpoint (app.py lines 363-441).  `token` is the token
resolved from the `Authorization` header or the session fallback;
`outcome` is the result of the network + regex phase were a scrape to
happen.  An empty trimmed query returns `[]` at once; a cache hit under
the lowercased query returns the cached list; otherwise the scrape runs,
an empty result is replaced by the fallback list, the result is cached,
and a search-history row is appended when a token decodes and the store
is reachable (the inner `try`/`except: pass` swallows decode failures). -/
def search (st : SearchState) (secret : String) (dbAvailable : Bool)
    (token : Option Token) (outcome : FetchResult) (q : String) :
    SearchResult × SearchState :=
  let query := pystrip q
  if query = "" then (⟨200, [], false⟩, st)
  else
    let cache_key := pylower query
    match st.cache.lookup cache_key with
    | some videos => (⟨200, videos, false⟩, st)
    | none =>
      let found := search_youtube outcome 15
      let videos := if found = [] then fallback_videos else found
      let cache := (cache_key, videos) :: st.cache
      let db :=
        match token with
        | some t =>
          match jwt_decode t secret with
          | some payload =>
            if dbAvailable then
              { st.db with search_history :=
                  st.db.search_history ++ [⟨payload.user_id, query, videos.length⟩] }
            else st.db
          | none => st.db
        | none => st.db
      (⟨200, videos, true⟩, ⟨cache, db⟩)

end Voofo

namespace Voofo

/-- On a nonempty query that misses the cache, the `search` endpoint's
response and the new cache head are determined by the scrape outcome. -/
theorem search_miss_result (st : SearchState) (secret : String) (a : Bool)
    (tok : Option Token) (o : FetchResult) (q : String)
    (hq : pystrip q ≠ "")
    (hmiss : st.cache.lookup (pylower (pystrip q)) = none) :
    (search st secret a tok o q).1
      = ⟨200, if search_youtube o 15 = [] then fallback_videos
              else search_youtube o 15, true⟩ ∧
    (search st secret a tok o q).2.cache
      = (pylower (pystrip q),
         if search_youtube o 15 = [] then fallback_videos
         else search_youtube o 15) :: st.cache := by
  constructor <;> simp [search, hq, hmiss]

/-- On a nonempty query whose lowercased form is cached, the `search`
endpoint returns the cached list unchanged, without scraping. -/
theorem search_hit_result (st : SearchState) (secret : String) (a : Bool)
    (tok : Option Token) (o : FetchResult) (q : String) (videos : List Video)
    (hq : pystrip q ≠ "")
    (hhit : st.cache.lookup (pylower (pystrip q)) = some videos) :
    search st secret a tok o q = (⟨200, videos, false⟩, st) := by
  simp [search, hq, hhit]

/-- C1: starting from any registry with no row for `(u, s)`, toggling
`(u, s)` twice in immediate succession returns `Liked` then `Unliked`,
restores the registry to its initial state, and afterwards `listLiked u`
contains no entry for `s`. -/
theorem C1_toggle_twice (reg : LikeRegistry) (u : Nat)
    (s title artist thumbnail : String)
    (h : reg.any (likes_row u s) = false) :
    (toggleLike reg u s title artist thumbnail).1 = .liked ∧
    (toggleLike (toggleLike reg u s title artist thumbnail).2
      u s title artist thumbnail).1 = .unliked ∧
    (toggleLike (toggleLike reg u s title artist thumbnail).2
      u s title artist thumbnail).2 = reg ∧
    ∀ r ∈ listLiked
      (toggleLike (toggleLike reg u s title artist thumbnail).2
        u s title artist thumbnail).2 u, r.song_id ≠ s := by
  have e1 : toggleLike reg u s title artist thumbnail
      = (.liked, reg ++ [⟨u, s, title, artist, thumbnail⟩]) := by
    simp [toggleLike, h]
  have hany : (reg ++ [(⟨u, s, title, artist, thumbnail⟩ : LikedSong)]).any
      (likes_row u s) = true := by
    simp [List.any_append, likes_row]
  have hself : reg.filter (fun r => !(likes_row u s r)) = reg := by
    rw [List.filter_eq_self]
    intro a ha
    simp only [List.any_eq_false] at h
    simp [h a ha]
  have hfilter : (reg ++ [(⟨u, s, title, artist, thumbnail⟩ : LikedSong)]).filter
      (fun r => !(likes_row u s r)) = reg := by
    rw [List.filter_append, hself]
    simp [likes_row]
  have e2 : toggleLike (reg ++ [⟨u, s, title, artist, thumbnail⟩])
      u s title artist thumbnail = (.unliked, reg) := by
    simp only [toggleLike, hany, if_true]
    rw [hfilter]
  refine ⟨by rw [e1], by rw [e1, e2], by rw [e1, e2], ?_⟩
  rw [e1, e2]
  intro r hr
  have hrmem : r ∈ reg := List.mem_of_mem_filter hr
  have hu : (r.user_id == u) = true := by
    have := List.mem_filter.mp hr
    simpa using this.2
  simp only [List.any_eq_false] at h
  have hns := h r hrmem
  simp only [likes_row, hu, Bool.true_and, beq_iff_eq] at hns
  exact hns

/-- Concrete instance of `C1_toggle_twice` on the empty registry. -/
theorem C1_toggle_twice_witness :
    ([] : LikeRegistry).any (likes_row 1 "yt1") = false ∧
    (toggleLike ([] : LikeRegistry) 1 "yt1" "T" "A" "th").1 = .liked := by
  exact ⟨by decide, (C1_toggle_twice [] 1 "yt1" "T" "A" "th" (by decide)).1⟩

/-- C2: a missing token, a token signed with the wrong secret, a malformed
token, and a well-formed token whose `user_id` has no user row all yield a
401 response from `token_required` (the latter three yield the identical
response), and the gated handler runs only when the signature verifies and
the referenced user is found. -/
theorem C2_token_required_gate (secret : String) (db : DB) (dbAvailable : Bool) :
    (token_required secret db dbAvailable none = .rejected 401 "Token is missing") ∧
    (∀ p s2, s2 ≠ secret →
      token_required secret db dbAvailable (some (.signed p s2))
        = .rejected 401 "Token is invalid") ∧
    (∀ raw, token_required secret db dbAvailable (some (.malformed raw))
        = .rejected 401 "Token is invalid") ∧
    (∀ t p, jwt_decode t secret = some p → find_user_by_id db p.user_id = none →
      token_required secret db dbAvailable (some t)
        = .rejected 401 "Token is invalid") ∧
    (∀ tok cu, token_required secret db dbAvailable tok = .granted cu →
      ∃ t p u, tok = some t ∧ jwt_decode t secret = some p ∧
        find_user_by_id db p.user_id = some u ∧ cu = ⟨u.id, u.username, u.email⟩) := by
  refine ⟨rfl, ?_, ?_, ?_, ?_⟩
  · intro p s2 hs
    simp [token_required, jwt_decode, hs]
  · intro raw
    simp [token_required, jwt_decode]
  · intro t p hdec hfind
    cases dbAvailable <;> simp [token_required, hdec, hfind]
  · intro tok cu hgr
    match tok with
    | none => simp [token_required] at hgr
    | some t =>
      simp only [token_required] at hgr
      cases hdec : jwt_decode t secret with
      | none => rw [hdec] at hgr; simp at hgr
      | some p =>
        rw [hdec] at hgr
        cases dbAvailable with
        | false => simp at hgr
        | true =>
          simp only [if_true] at hgr
          cases hfind : find_user_by_id db p.user_id with
          | none => rw [hfind] at hgr; simp at hgr
          | some u =>
            rw [hfind] at hgr
            simp only [AuthOutcome.granted.injEq] at hgr
            exact ⟨t, p, u, rfl, hdec, hfind, hgr.symm⟩

/-- Concrete instance of `C2_token_required_gate`: a token signed with the
wrong secret is rejected with 401. -/
theorem C2_token_required_gate_witness :
    token_required "secret" ⟨[], 1, []⟩ true (some (.signed ⟨1, "alice"⟩ "other"))
      = .rejected 401 "Token is invalid" := by
  exact (C2_token_required_gate "secret" ⟨[], 1, []⟩ true).2.1 ⟨1, "alice"⟩ "other"
    (by decide)

/-- C3: with valid inputs and a fresh username, registering succeeds; an
immediately following registration of the same (trimmed) username returns
the specific duplicate-username conflict with status 400 and leaves the
store unchanged (no second row). -/
theorem C3_register_twice (db : DB) (salt1 salt2 : Nat) (secret : String)
    (req1 req2 : RegisterRequest)
    (hu : (pystrip req1.username) ≠ "")
    (hp1 : ¬ (pystrip req1.password).length < 6)
    (hp2 : ¬ (pystrip req2.password).length < 6)
    (hsame : (pystrip req2.username) = (pystrip req1.username))
    (hfresh : db.users.any (fun u => u.username == (pystrip req1.username)) = false) :
    (register db salt1 secret true req1).1
      = .ok db.next_id (pystrip req1.username) (pystrip req1.email)
          (jwt_encode ⟨db.next_id, (pystrip req1.username)⟩ secret) ∧
    (register (register db salt1 secret true req1).2 salt2 secret true req2).1
      = .duplicate ∧
    RegisterResponse.status .duplicate = 400 ∧
    (register (register db salt1 secret true req1).2 salt2 secret true req2).2
      = (register db salt1 secret true req1).2 := by
  have hpne1 : (pystrip req1.password) ≠ "" := by
    intro he; rw [he] at hp1; exact hp1 (by decide)
  have hpne2 : (pystrip req2.password) ≠ "" := by
    intro he; rw [he] at hp2; exact hp2 (by decide)
  have hune2 : (pystrip req2.username) ≠ "" := by rw [hsame]; exact hu
  have e1 : register db salt1 secret true req1
      = (.ok db.next_id (pystrip req1.username) (pystrip req1.email)
          (jwt_encode ⟨db.next_id, (pystrip req1.username)⟩ secret),
        { db with
          users := db.users ++
            [⟨db.next_id, (pystrip req1.username), (pystrip req1.email),
              generate_password_hash salt1 (pystrip req1.password)⟩],
          next_id := db.next_id + 1 }) := by
    simp [register, hu, hpne1, hp1, hfresh]
  have hdup : ((db.users ++
      [(⟨db.next_id, (pystrip req1.username), (pystrip req1.email),
        generate_password_hash salt1 (pystrip req1.password)⟩ : User)]).any
      (fun u => u.username == (pystrip req2.username))) = true := by
    simp [List.any_append, hsame]
  have e2 : register { db with
        users := db.users ++
          [⟨db.next_id, (pystrip req1.username), (pystrip req1.email),
            generate_password_hash salt1 (pystrip req1.password)⟩],
        next_id := db.next_id + 1 } salt2 secret true req2
      = (.duplicate,
        { db with
          users := db.users ++
            [⟨db.next_id, (pystrip req1.username), (pystrip req1.email),
              generate_password_hash salt1 (pystrip req1.password)⟩],
          next_id := db.next_id + 1 }) := by
    simp [register, hune2, hpne2, hp2, hdup]
  rw [e1]
  exact ⟨rfl, by rw [e2], rfl, by rw [e2]⟩

/-- Concrete instance of `C3_register_twice`: registering `alice` twice on
an empty store yields the duplicate conflict the second time. -/
theorem C3_register_twice_witness :
    (register (register ⟨[], 1, []⟩ 7 "k" true ⟨"alice", "", "secret1"⟩).2
      8 "k" true ⟨"alice", "", "secret1"⟩).1 = .duplicate := by
  exact (C3_register_twice ⟨[], 1, []⟩ 7 8 "k" ⟨"alice", "", "secret1"⟩
    ⟨"alice", "", "secret1"⟩ (by decide) (by decide) (by decide) (by decide)
    (by decide)).2.1

/-- C4: with both fields present, login returns the 401 `invalid` response
when the username exists but the password does not match the stored hash,
and when the username does not exist; it returns a success response only
when the username exists and the password matches. -/
theorem C4_login_verify (db : DB) (secret : String) (req : LoginRequest)
    (hu : (pystrip req.username) ≠ "") (hp : (pystrip req.password) ≠ "") :
    (∀ u, find_user_by_username db (pystrip req.username) = some u →
      check_password_hash u.password_hash (pystrip req.password) = false →
      login db secret true req = .invalid ∧ LoginResponse.status .invalid = 401) ∧
    (find_user_by_username db (pystrip req.username) = none →
      login db secret true req = .invalid ∧ LoginResponse.status .invalid = 401) ∧
    (∀ uid un em tok, login db secret true req = .ok uid un em tok →
      ∃ u, find_user_by_username db (pystrip req.username) = some u ∧
        check_password_hash u.password_hash (pystrip req.password) = true) := by
  refine ⟨?_, ?_, ?_⟩
  · intro u hfind hcheck
    exact ⟨by simp [login, hu, hp, hfind, hcheck], rfl⟩
  · intro hfind
    exact ⟨by simp [login, hu, hp, hfind], rfl⟩
  · intro uid un em tok hok
    simp only [login, hu, hp, false_or, if_true, if_false] at hok
    cases hfind : find_user_by_username db (pystrip req.username) with
    | none => rw [hfind] at hok; simp at hok
    | some u =>
      rw [hfind] at hok
      refine ⟨u, rfl, ?_⟩
      by_cases hch : check_password_hash u.password_hash (pystrip req.password) = true
      · exact hch
      · simp [hch] at hok

/-- Concrete instance of `C4_login_verify`: a wrong password for an
existing user yields the 401 `invalid` response. -/
theorem C4_login_verify_witness :
    login ⟨[⟨1, "alice", "", ⟨0, "secret1"⟩⟩], 2, []⟩ "k" true
      ⟨"alice", "wrong"⟩ = .invalid := by
  exact ((C4_login_verify ⟨[⟨1, "alice", "", ⟨0, "secret1"⟩⟩], 2, []⟩ "k"
    ⟨"alice", "wrong"⟩ (by decide) (by decide)).1
    ⟨1, "alice", "", ⟨0, "secret1"⟩⟩ (by decide) (by decide)).1

/-- C8: any registration whose password trims to fewer than 6 characters
is rejected with a 400 response, the store is unchanged, and the response
is computed without consulting the store at all (it is the same for every
store and even with the connection unavailable). -/
theorem C8_short_password (db : DB) (salt : Nat) (secret : String)
    (dbAvailable : Bool) (req : RegisterRequest)
    (h : (pystrip req.password).length < 6) :
    (register db salt secret dbAvailable req).1.status = 400 ∧
    (register db salt secret dbAvailable req).2 = db ∧
    ∀ db2 avail2,
      (register db salt secret dbAvailable req).1
        = (register db2 salt secret avail2 req).1 := by
  by_cases hcond : (pystrip req.username) = "" ∨ (pystrip req.password) = ""
  · have e : ∀ d a, register d salt secret a req = (.missingFields, d) := by
      intro d a; simp [register, hcond]
    exact ⟨by rw [e db dbAvailable]; rfl, by rw [e db dbAvailable],
      fun db2 avail2 => by rw [e db dbAvailable, e db2 avail2]⟩
  · have e : ∀ d a, register d salt secret a req = (.shortPassword, d) := by
      intro d a; simp [register, hcond, h]
    exact ⟨by rw [e db dbAvailable]; rfl, by rw [e db dbAvailable],
      fun db2 avail2 => by rw [e db dbAvailable, e db2 avail2]⟩

/-- Concrete instance of `C8_short_password`: a 3-character password is
rejected with 400. -/
theorem C8_short_password_witness :
    (register ⟨[], 1, []⟩ 0 "k" true ⟨"bob", "", "abc"⟩).1.status = 400 := by
  exact (C8_short_password ⟨[], 1, []⟩ 0 "k" true ⟨"bob", "", "abc"⟩ (by decide)).1

/-- In-bounds/default characterization of an optional lookup with
default. -/
theorem getD_dite {α : Type} (l : List α) (i : Nat) (d : α) :
    l[i]?.getD d = if h : i < l.length then l.get ⟨i, h⟩ else d := by
  by_cases h : i < l.length
  · simp [h, List.getElem?_eq_getElem]
  · simp [h, List.getElem?_eq_none (Nat.le_of_not_lt h)]

/-- C5: any raised exception inside the `search_youtube` adapter yields
`[]` from the adapter, and on a nonempty uncached query the `search`
endpoint then substitutes the hardcoded fallback list and responds with
HTTP 200 (no exception reaches the HTTP caller: `search` is total). -/
theorem C5_failure_degrades (st : SearchState) (secret : String) (a : Bool)
    (tok : Option Token) (q : String) (n : Nat)
    (hq : pystrip q ≠ "")
    (hmiss : st.cache.lookup (pylower (pystrip q)) = none) :
    search_youtube .failure n = [] ∧
    (search st secret a tok .failure q).1.status = 200 ∧
    (search st secret a tok .failure q).1.body = fallback_videos := by
  have h := (search_miss_result st secret a tok .failure q hq hmiss).1
  refine ⟨rfl, ?_, ?_⟩ <;> simp [h, search_youtube]

/-- Concrete instance of `C5_failure_degrades`: a failed scrape on a fresh
query returns the fallback list. -/
theorem C5_failure_degrades_witness :
    (search ⟨[], ⟨[], 1, []⟩⟩ "k" true none .failure "hello").1.body
      = fallback_videos := by
  exact (C5_failure_degrades ⟨[], ⟨[], 1, []⟩⟩ "k" true none "hello" 15
    (by decide) (by decide)).2.2

/-- C6 as stated is false at this input: the code truncates each extracted
title to its first 80 characters (`title[:80]`, app.py line 142), so for
an 81-character extracted title the produced record's title is not the
extracted title even though the title list is long enough. -/
theorem C6_counterexample :
    ¬ ((combine_videos ["aaaaaaaaaaa"]
        ["xxxxxxxxxxxxxxxxxxxxxxxxxxxxxxxxxxxxxxxxxxxxxxxxxxxxxxxxxxxxxxxxxxxxxxxxxxxxxxxxx"]
        [] [] 10).map Video.title
      = ["xxxxxxxxxxxxxxxxxxxxxxxxxxxxxxxxxxxxxxxxxxxxxxxxxxxxxxxxxxxxxxxxxxxxxxxxxxxxxxxxx"]) := by
  decide

/-- C6 (amended): the scraping search builds at most `max_results`
records by zipping the extracted lists by index; record `i` carries the
`i`-th video id, the first 80 characters of the `i`-th extracted title
when the title list is long enough and the placeholder `"Unknown Title"`
otherwise, and the artist/channel and duration fall back to
`"Unknown Artist"` and `"N/A"` when their lists are shorter. -/
theorem C6_zip_by_index (video_ids titles channels durations : List String)
    (max_results : Nat) :
    (combine_videos video_ids titles channels durations max_results).length
      ≤ max_results ∧
    ∀ i (h : i <
        (combine_videos video_ids titles channels durations max_results).length),
      ((combine_videos video_ids titles channels durations max_results).get
          ⟨i, h⟩).id = (video_ids.take max_results).getD i "" ∧
      ((combine_videos video_ids titles channels durations max_results).get
          ⟨i, h⟩).title
        = pytake (if hi : i < titles.length then titles.get ⟨i, hi⟩
                  else "Unknown Title") 80 ∧
      ((combine_videos video_ids titles channels durations max_results).get
          ⟨i, h⟩).artist
        = (if hi : i < channels.length then channels.get ⟨i, hi⟩
           else "Unknown Artist") ∧
      ((combine_videos video_ids titles channels durations max_results).get
          ⟨i, h⟩).channel
        = (if hi : i < channels.length then channels.get ⟨i, hi⟩
           else "Unknown Artist") ∧
      ((combine_videos video_ids titles channels durations max_results).get
          ⟨i, h⟩).duration
        = (if hi : i < durations.length then durations.get ⟨i, hi⟩
           else "N/A") := by
  constructor
  · simp only [combine_videos, List.length_map, List.enum_length,
      List.length_take]
    omega
  · intro i h
    have h2 : i < (video_ids.take max_results).length := by
      simpa [combine_videos] using h
    simp only [combine_videos, List.get_eq_getElem, List.getElem_map,
      List.getElem_enum]
    have h3 : i < max_results ∧ i < video_ids.length := by
      simp only [List.length_take] at h2; omega
    refine ⟨?_, ?_, ?_, ?_, ?_⟩ <;>
      simp [getD_dite, h2, h3, List.getElem_take]

/-- Concrete instance of `C6_zip_by_index`: with two extracted ids and one
extracted title, the second record falls back to the duration placeholder. -/
theorem C6_zip_by_index_witness :
    (combine_videos ["aaaaaaaaaaa", "bbbbbbbbbbb"] ["Song Title"] [] [] 15).length
      ≤ 15 ∧
    ((combine_videos ["aaaaaaaaaaa", "bbbbbbbbbbb"] ["Song Title"] [] [] 15).get
      ⟨1, by decide⟩).duration = "N/A" := by
  refine ⟨(C6_zip_by_index _ _ _ _ _).1, ?_⟩
  have h := (C6_zip_by_index ["aaaaaaaaaaa", "bbbbbbbbbbb"] ["Song Title"]
    [] [] 15).2 1 (by decide)
  rw [h.2.2.2.2]
  decide

/-- C7: a search on a fresh nonempty query stores its result under the
lowercased stripped query; any second search whose stripped query
lowercases to the same key returns exactly the stored list without
invoking `search_youtube` and leaves the state unchanged, and no cache
entry present before the first search was evicted or invalidated by it. -/
theorem C7_cache_no_rescrape (st : SearchState) (secret1 secret2 : String)
    (a1 a2 : Bool) (tok1 tok2 : Option Token) (o1 o2 : FetchResult)
    (q1 q2 : String)
    (hq1 : pystrip q1 ≠ "") (hq2 : pystrip q2 ≠ "")
    (hkey : pylower (pystrip q2) = pylower (pystrip q1))
    (hmiss : st.cache.lookup (pylower (pystrip q1)) = none) :
    (search (search st secret1 a1 tok1 o1 q1).2 secret2 a2 tok2 o2 q2).1.body
      = (search st secret1 a1 tok1 o1 q1).1.body ∧
    (search (search st secret1 a1 tok1 o1 q1).2 secret2 a2 tok2 o2 q2).1.scraped
      = false ∧
    (search (search st secret1 a1 tok1 o1 q1).2 secret2 a2 tok2 o2 q2).2
      = (search st secret1 a1 tok1 o1 q1).2 ∧
    ∀ k v, st.cache.lookup k = some v →
      (search st secret1 a1 tok1 o1 q1).2.cache.lookup k = some v := by
  obtain ⟨hres, hcache⟩ := search_miss_result st secret1 a1 tok1 o1 q1 hq1 hmiss
  have hhit : (search st secret1 a1 tok1 o1 q1).2.cache.lookup
      (pylower (pystrip q2))
      = some (if search_youtube o1 15 = [] then fallback_videos
              else search_youtube o1 15) := by
    rw [hcache, hkey]
    simp [List.lookup]
  have e2 := search_hit_result (search st secret1 a1 tok1 o1 q1).2 secret2 a2
    tok2 o2 q2 _ hq2 hhit
  refine ⟨?_, ?_, ?_, ?_⟩
  · rw [e2, hres]
  · rw [e2]
  · rw [e2]
  · intro k v hkv
    rw [hcache]
    have hne : (k == pylower (pystrip q1)) = false := by
      rcases eq_or_ne k (pylower (pystrip q1)) with rfl | hne
      · rw [hmiss] at hkv; cases hkv
      · simp [hne]
    simp [List.lookup, hne, hkv]

/-- Concrete instance of `C7_cache_no_rescrape`: a second search whose
query differs only in case and surrounding whitespace does not scrape. -/
theorem C7_cache_no_rescrape_witness :
    (search (search ⟨[], ⟨[], 1, []⟩⟩ "k" true none .failure "Hello").2
      "k" true none .failure " hello ").1.scraped = false := by
  exact (C7_cache_no_rescrape ⟨[], ⟨[], 1, []⟩⟩ "k" "k" true true none none
    .failure .failure "Hello" " hello " (by decide) (by decide) (by decide)
    (by decide)).2.1

/-- C9: a query that strips to the empty string makes `search` return 200
with the empty list immediately: no scrape, no fallback substitution, no
cache read or write, and no search-history row (the whole state is
returned unchanged). -/
theorem C9_empty_query (st : SearchState) (secret : String) (a : Bool)
    (tok : Option Token) (o : FetchResult) (q : String)
    (hq : pystrip q = "") :
    search st secret a tok o q = (⟨200, [], false⟩, st) := by
  simp [search, hq]

/-- Concrete instance of `C9_empty_query`: a whitespace-only query. -/
theorem C9_empty_query_witness :
    search ⟨[], ⟨[], 1, []⟩⟩ "k" true none .failure "   "
      = (⟨200, [], false⟩, ⟨[], ⟨[], 1, []⟩⟩) := by
  exact C9_empty_query ⟨[], ⟨[], 1, []⟩⟩ "k" true none .failure "   " (by decide)

/-- C10: every record built by the scraping search has a title of at most
80 characters: the extracted (or placeholder) title passes through the
slice `title[:80]` before being placed in the record. -/
theorem C10_title_at_most_80 (video_ids titles channels durations : List String)
    (max_results : Nat) :
    ∀ v ∈ combine_videos video_ids titles channels durations max_results,
      v.title.length ≤ 80 := by
  intro v hv
  simp only [combine_videos, List.mem_map] at hv
  obtain ⟨p, hp, rfl⟩ := hv
  show ((titles.getD p.1 "Unknown Title").data.take 80).length ≤ 80
  simp [List.length_take]

/-- Concrete instance of `C10_title_at_most_80`: a 90-character extracted
title yields a record whose title has at most 80 characters. -/
theorem C10_title_at_most_80_witness :
    ((combine_videos ["aaaaaaaaaaa"]
      ["xxxxxxxxxxxxxxxxxxxxxxxxxxxxxxxxxxxxxxxxxxxxxxxxxxxxxxxxxxxxxxxxxxxxxxxxxxxxxxxxxxxxxxxx"]
      [] [] 10).get ⟨0, by decide⟩).title.length ≤ 80 := by
  exact C10_title_at_most_80 ["aaaaaaaaaaa"]
    ["xxxxxxxxxxxxxxxxxxxxxxxxxxxxxxxxxxxxxxxxxxxxxxxxxxxxxxxxxxxxxxxxxxxxxxxxxxxxxxxxxxxxxxxx"]
    [] [] 10 _ (List.get_mem _ _ _)

end Voofo
